import Mathlib

/-!
Verification development for the event-driven recurrence-and-reminder
pipeline of the task-management repository.

Shallow embedding of:
* `src/recurring-service/src/services/recurrence.py` (`calculate_next_due`),
* `src/recurring-service/src/api/events.py` (`handle_task_event`),
* `src/notification-service/src/handlers/reminder_handler.py` and
  `src/notification-service/src/api/reminders.py` (the reminder notifier),
* `src/backend/src/services/events/publisher.py` (`publish_task_event`).

Python `datetime` values (UTC, naive) are modelled by a calendar record
`DateTime` with minute granularity; chronological comparison of two
datetimes is modelled by comparing `toMinutes`, the (injective, monotone)
translation of a valid calendar datetime to minutes on the proleptic
Gregorian timeline, which coincides with Python's `datetime` ordering.
`timedelta(days = n)` is `addDays n` (n calendar-day steps on the
timeline) and `dateutil.relativedelta(months = 1)` is `addMonths1`
(increment the month, clamping the day to the length of the target
month), exactly the day-preserving/clamping semantics of `relativedelta`.
-/

namespace TaskPipeline

/-- A UTC wall-clock instant at minute granularity: the projection of a
Python `datetime` that the recurrence pipeline manipulates (the sources
only ever add whole days or months, which preserve the sub-day part). -/
structure DateTime where
  year : Nat
  month : Nat
  day : Nat
  /-- Minutes since midnight. -/
  minute : Nat
deriving DecidableEq, Repr

/-- Gregorian leap-year rule, as used by Python's `calendar`/`dateutil`. -/
def isLeap (y : Nat) : Bool :=
  (y % 4 == 0 && y % 100 != 0) || (y % 400 == 0)

/-- Number of days in month `m` of year `y` (months are 1-based). -/
def daysInMonth (y m : Nat) : Nat :=
  if m = 2 then (if isLeap y then 29 else 28)
  else if m = 4 ∨ m = 6 ∨ m = 9 ∨ m = 11 then 30
  else 31

/-- Days strictly before month `m` within year `y` (so `daysBeforeMonth y 1 = 0`). -/
def daysBeforeMonth (y : Nat) : Nat → Nat
  | 0 => 0
  | 1 => 0
  | m + 2 => daysBeforeMonth y (m + 1) + daysInMonth y (m + 1)

/-- Length of year `y` in days, expressed through the month table. -/
def daysInYear (y : Nat) : Nat := daysBeforeMonth y 13

/-- Days strictly before year `y` on the proleptic Gregorian timeline. -/
def daysBeforeYear : Nat → Nat
  | 0 => 0
  | y + 1 => daysBeforeYear y + daysInYear y

/-- Day index of a calendar date on the timeline (day 1 of month 1 of year 0 is 0). -/
def toDays (d : DateTime) : Nat :=
  daysBeforeYear d.year + daysBeforeMonth d.year d.month + (d.day - 1)

/-- Minute index of a datetime on the timeline; Python `datetime`
comparison on valid datetimes is comparison of this value. -/
def toMinutes (d : DateTime) : Nat :=
  1440 * toDays d + d.minute

/-- The record denotes an actual calendar datetime (what every Python
`datetime` object satisfies by construction). -/
def Valid (d : DateTime) : Prop :=
  1 ≤ d.month ∧ d.month ≤ 12 ∧ 1 ≤ d.day ∧
    d.day ≤ daysInMonth d.year d.month ∧ d.minute < 1440

instance (d : DateTime) : Decidable (Valid d) := by
  unfold Valid; infer_instance

/-- Step to the following calendar day (the timeline successor used to
realise `timedelta(days = 1)`). -/
def nextDay (d : DateTime) : DateTime :=
  if d.day < daysInMonth d.year d.month then
    { d with day := d.day + 1 }
  else if d.month < 12 then
    { d with month := d.month + 1, day := 1 }
  else
    { year := d.year + 1, month := 1, day := 1, minute := d.minute }

/-- `d + timedelta(days = n)`. -/
def addDays (n : Nat) (d : DateTime) : DateTime :=
  match n with
  | 0 => d
  | n + 1 => addDays n (nextDay d)

/-- `d + relativedelta(months = 1)`: advance the month by one, clamping
the day-of-month to the length of the target month (dateutil semantics). -/
def addMonths1 (d : DateTime) : DateTime :=
  if d.month = 12 then
    { year := d.year + 1, month := 1,
      day := min d.day (daysInMonth (d.year + 1) 1), minute := d.minute }
  else
    { d with month := d.month + 1,
             day := min d.day (daysInMonth d.year (d.month + 1)) }

/-- The per-pattern advance used both for the first candidate and inside
the future-correction loop of `calculate_next_due` (the `if recurrence ==
"daily" / "weekly" / "monthly"` dispatch in `recurrence.py`). -/
def stepInterval (recurrence : String) (d : DateTime) : DateTime :=
  if recurrence = "daily" then addDays 1 d
  else if recurrence = "weekly" then addDays 7 d
  else if recurrence = "monthly" then addMonths1 d
  else d

/-- The `while next_due <= now: next_due += interval` loop of
`calculate_next_due`.  The inner guard `toMinutes c < toMinutes (step c)`
is the termination variant; for the three real patterns on valid
datetimes every step strictly advances the timeline (proved below), so
the `else c` branch is dead code on all reachable states and the
function agrees with the source loop. -/
def ensureFutureAux (step : DateTime → DateTime) (now c : DateTime) : DateTime :=
  if _h1 : toMinutes c ≤ toMinutes now then
    if _h2 : toMinutes c < toMinutes (step c) then
      ensureFutureAux step now (step c)
    else c
  else c
termination_by toMinutes now + 1 - toMinutes c
decreasing_by omega

/-- Result of `calculate_next_due`, together with whether the
`unknown_recurrence_pattern` warning branch was taken. -/
structure CalcResult where
  next : Option DateTime
  warnedUnknown : Bool
deriving DecidableEq, Repr

/-- Embedding of `calculate_next_due` in
`src/recurring-service/src/services/recurrence.py`.  The two
`datetime.utcnow()` reads of the source (fallback anchor and the loop
bound, microseconds apart in one call) are both modelled by the
parameter `now`.  Python's `current_due or completed_at or utcnow()` is
the first-non-`None` chain below, since `datetime` objects are always
truthy.  Logging other than the unknown-pattern warning is not modelled. -/
def calculate_next_due_full (current_due : Option DateTime) (recurrence : String)
    (completed_at : Option DateTime) (now : DateTime) : CalcResult :=
  if recurrence = "none" then { next := none, warnedUnknown := false }
  else
    let base_date :=
      match current_due with
      | some d => d
      | none =>
        match completed_at with
        | some c => c
        | none => now
    if recurrence = "daily" ∨ recurrence = "weekly" ∨ recurrence = "monthly" then
      { next := some (ensureFutureAux (stepInterval recurrence) now
                        (stepInterval recurrence base_date)),
        warnedUnknown := false }
    else
      { next := none, warnedUnknown := true }

/-- The return value of `calculate_next_due`. -/
def calculate_next_due (current_due : Option DateTime) (recurrence : String)
    (completed_at : Option DateTime) (now : DateTime) : Option DateTime :=
  (calculate_next_due_full current_due recurrence completed_at now).next

/-- The base anchor exactly as §4.2 of the spec words it: `previousDue`
if present, else `completedAt`, else current time, in that precedence
order.  Stated from the spec, to be compared with the source embedding. -/
def specAnchor (previousDue completedAt : Option DateTime) (now : DateTime) : DateTime :=
  match previousDue with
  | some p => p
  | none =>
    match completedAt with
    | some c => c
    | none => now

/-- The first candidate exactly as §4.2 of the spec words it: anchor plus
1 day for daily, plus 7 days for weekly, advanced by one calendar month
for monthly.  Stated from the spec, to be compared with the source embedding. -/
def specFirstCandidate (pattern : String) (anchor : DateTime) : DateTime :=
  if pattern = "daily" then addDays 1 anchor
  else if pattern = "weekly" then addDays 7 anchor
  else addMonths1 anchor

/-! ## JSON values and the inbound handlers

Python dicts arriving from `request.json()` are modelled by `J`; an
object's fields are an association list and `dict.get` is `List.lookup`
(inbound bodies have no duplicate keys).  Exceptions inside the
handlers are modelled by the explicit branch that the enclosing
`try/except` of the source maps them to. -/

/-- A JSON value as produced by `request.json()`. -/
inductive J where
  | jnull : J
  | jbool : Bool → J
  | jstr : String → J
  | jnum : Int → J
  | jobj : List (String × J) → J
  | jarr : List J → J

/-- Python truthiness of a JSON-decoded value (`None`, `False`, `0`,
`""`, `[]`, `{}` are falsy). -/
def truthyJ : J → Bool
  | .jnull => false
  | .jbool b => b
  | .jstr s => !(s == "")
  | .jnum n => !(n == 0)
  | .jobj fs => !fs.isEmpty
  | .jarr xs => !xs.isEmpty

/-- `body.get("data", body)` in `handle_task_event`: unwrap a CloudEvent
envelope, falling back to the top-level body (`events.py` line 53). -/
def extract_payload : J → J
  | .jobj fs => (List.lookup "data" fs).getD (J.jobj fs)
  | other => other

/-- `event_type != "task.completed"` on a `dict.get` result: Python
equality of an arbitrary JSON value with that string. -/
def isCompletedEvent : Option J → Bool
  | some (.jstr s) => s == "task.completed"
  | _ => false

/-- Replace every non-overlapping occurrence of `pat` (non-empty)
left-to-right, on character lists; `fuel` bounds the scan (instantiated
with the list length). -/
def replaceFuel (pat rep : List Char) : Nat → List Char → List Char
  | _, [] => []
  | 0, rest => rest
  | fuel + 1, c :: rest =>
    if pat.isPrefixOf (c :: rest) then
      rep ++ replaceFuel pat rep fuel (List.drop (pat.length - 1) rest)
    else
      c :: replaceFuel pat rep fuel rest

/-- Python `s.replace(pat, rep)`: replace non-overlapping occurrences
left-to-right (the handler only calls it with the non-empty pattern
`"Bearer "`). -/
def pyReplace (s pat rep : String) : String :=
  String.mk (replaceFuel pat.data rep.data s.data.length s.data)

/-- A Python datetime as produced by `datetime.fromisoformat` in the
handler: the instant, plus whether the parsed string carried a UTC
offset (so the result has `tzinfo` set).  An offset-aware datetime
cannot be order-compared with the naive `datetime.utcnow()`: Python
raises `TypeError`. -/
structure PyDateTime where
  tzAware : Bool
  dt : DateTime

/-- The handler's invocation `calculate_next_due(current_due,
recurrence, completed_at=datetime.utcnow())`, distinguishing
offset-aware parsed due dates.  A naive (or absent) `current_due`
behaves as `calculate_next_due`.  An offset-aware `current_due` (from
a Z/offset-suffixed string) makes `base_date`, hence `next_due`,
offset-aware, so the first evaluation of the loop guard
`next_due <= now` against the naive `utcnow()` raises `TypeError` for
the three real patterns (`error`); the `"none"` and unknown-pattern
branches of the source return before any comparison. -/
def calculate_next_due_from_handler (current_due : Option PyDateTime)
    (recurrence : String) (now : DateTime) : Except Unit (Option DateTime) :=
  match current_due with
  | none => .ok (calculate_next_due none recurrence (some now) now)
  | some cd =>
    if cd.tzAware then
      if recurrence = "none" then .ok none
      else if recurrence = "daily" ∨ recurrence = "weekly" ∨ recurrence = "monthly" then
        .error ()
      else .ok none
    else .ok (calculate_next_due (some cd.dt) recurrence (some now) now)

/-- Environment of one `backend_client.create_task` invocation: the
outcome the `await` produces (`ok` = the created task's JSON, `error` =
any exception raised inside the call, i.e. network error, non-2xx via
`raise_for_status`, or a failure while post-processing), plus how many
tag-attachment POSTs `_add_tags` performed during the call (tag POSTs
happen only inside `create_task`). -/
structure BackendCall where
  result : Except String J
  tagPosts : Nat

/-- Response of the Reactivator endpoint: the HTTP status FastAPI sends
(every branch of `handle_task_event` returns a plain dict, hence 200),
the `status` field of the JSON body, the optional `reason` field, and
the outbound-call counts observed during handling. -/
structure TaskEventResponse where
  httpStatus : Nat
  status : String
  reason : Option String
  createCalls : Nat
  tagCalls : Nat
deriving DecidableEq, Repr

/-- Embedding of `handle_task_event` in
`src/recurring-service/src/api/events.py`.

* `parseIso` abstracts `datetime.fromisoformat(s.replace("Z", "+00:00"))`
  (`none` = the `ValueError` it raises; `some ⟨true, dt⟩` = the string
  carried a Z/offset suffix and the result is offset-aware;
  `some ⟨false, dt⟩` = a naive result).
* `authHeader` is `request.headers.get("Authorization", "")`.
* `backend` is the environment of the (at most one)
  `backend_client.create_task` call.
* `now` is `datetime.utcnow()`.

Python exceptions are mapped to the branch of the enclosing `try` that
catches them: an `AttributeError` from `.get` on a non-dict, a
`ValueError` from `fromisoformat`, a non-dict `task_data`, and the
`TypeError` that `calculate_next_due` raises when an offset-aware
parsed due date meets the naive `utcnow()` in its loop guard, are all
caught by the outer `except` which returns `{"status": "FAILED"}` with
HTTP 200; an exception out of `create_task` (or from reading
`new_task.get("id")` on a non-dict response) is caught by the inner
`except` which returns `{"status": "RETRY"}` — also with HTTP 200,
since the source returns a plain dict (its comment announces a 503 that
is never produced). -/
def handle_task_event (parseIso : String → Option PyDateTime) (body : J)
    (authHeader : String) (backend : BackendCall) (now : DateTime) :
    TaskEventResponse :=
  match body with
  | .jobj bodyFields =>
    match extract_payload (J.jobj bodyFields) with
    | .jobj ds =>
      let event_type := List.lookup "event_type" ds
      match (List.lookup "task_data" ds).getD (J.jobj []) with
      | .jobj td =>
        if !(isCompletedEvent event_type) then
          { httpStatus := 200, status := "IGNORED",
            reason := some "not a completion event", createCalls := 0, tagCalls := 0 }
        else
          let recurrence := (List.lookup "recurrence" td).getD (J.jstr "none")
          if (match recurrence with | .jstr s => s == "none" | _ => false) then
            { httpStatus := 200, status := "IGNORED",
              reason := some "task is not recurring", createCalls := 0, tagCalls := 0 }
          else
            let dd := (List.lookup "due_date" td).getD J.jnull
            let currentDueRes : Except Unit (Option PyDateTime) :=
              if truthyJ dd then
                match dd with
                | .jstr s =>
                  match parseIso s with
                  | some cd => .ok (some cd)
                  | none => .error ()
                | _ => .error ()
              else .ok none
            match currentDueRes with
            | .error _ =>
              { httpStatus := 200, status := "FAILED", reason := none,
                createCalls := 0, tagCalls := 0 }
            | .ok current_due =>
              let next_due_res : Except Unit (Option DateTime) :=
                match recurrence with
                | .jstr r => calculate_next_due_from_handler current_due r now
                | _ => .ok none
              match next_due_res with
              | .error _ =>
                -- TypeError from the aware-naive comparison propagates to
                -- the outer except.
                { httpStatus := 200, status := "FAILED", reason := none,
                  createCalls := 0, tagCalls := 0 }
              | .ok none =>
                { httpStatus := 200, status := "FAILED",
                  reason := some "could not calculate next due date",
                  createCalls := 0, tagCalls := 0 }
              | .ok (some _) =>
                let token := if authHeader = "" then ""
                             else pyReplace authHeader "Bearer " ""
                if token = "" then
                  { httpStatus := 200, status := "SKIPPED",
                    reason := some "no authentication token available",
                    createCalls := 0, tagCalls := 0 }
                else
                  match backend.result with
                  | .error _ =>
                    { httpStatus := 200, status := "RETRY", reason := none,
                      createCalls := 1, tagCalls := backend.tagPosts }
                  | .ok (.jobj _) =>
                    { httpStatus := 200, status := "SUCCESS", reason := none,
                      createCalls := 1, tagCalls := backend.tagPosts }
                  | .ok _ =>
                    -- `new_task.get("id")` on a non-dict raises inside the
                    -- inner try, landing in the RETRY branch.
                    { httpStatus := 200, status := "RETRY", reason := none,
                      createCalls := 1, tagCalls := backend.tagPosts }
      | _ =>
        { httpStatus := 200, status := "FAILED", reason := none,
          createCalls := 0, tagCalls := 0 }
    | _ =>
      { httpStatus := 200, status := "FAILED", reason := none,
        createCalls := 0, tagCalls := 0 }
  | _ =>
    { httpStatus := 200, status := "FAILED", reason := none,
      createCalls := 0, tagCalls := 0 }

/-! ## Reminder Notifier -/

/-- Result of `ReminderHandler.handle_reminder_event`: the `status` and
`message` fields of the returned dict, plus how many notification
dispatches (the `print` in `_send_notification`) were performed. -/
structure ReminderResult where
  status : String
  message : String
  dispatches : Nat
deriving DecidableEq, Repr

/-- `_validate_event_data`: each of `task_id`, `title`, `user_id` must
be present and truthy. -/
def validate_event_data (fs : List (String × J)) : Bool :=
  (["task_id", "title", "user_id"] : List String).all fun f =>
    match List.lookup f fs with
    | some v => truthyJ v
    | none => false

/-- Whether `_send_notification` completes: it fails (returns
`success = False`, performing no dispatch) exactly when a truthy
non-string `due_at` or `remind_at` makes `.replace` raise inside its
outer `try`; an unparseable string is caught by the inner
`except ValueError` and still dispatches. -/
def strOrFalsy (v : J) : Bool :=
  !(truthyJ v) || (match v with | .jstr _ => true | _ => false)

/-- Embedding of `ReminderHandler.handle_reminder_event` in
`src/notification-service/src/handlers/reminder_handler.py`.  Message
texts are abbreviated except the validation message, which is verbatim;
non-dict payloads raise during validation or field access and are
caught by the outer `except` (for a list payload lacking the first
required key the source reports invalid data instead; no claim depends
on non-object payloads). -/
def handle_reminder_event (event_data : J) : ReminderResult :=
  match event_data with
  | .jobj fs =>
    if !(validate_event_data fs) then
      { status := "error", message := "Invalid reminder event data", dispatches := 0 }
    else
      let due_at := (List.lookup "due_at" fs).getD J.jnull
      let remind_at := (List.lookup "remind_at" fs).getD J.jnull
      if strOrFalsy due_at && strOrFalsy remind_at then
        { status := "success", message := "Reminder notification sent", dispatches := 1 }
      else
        { status := "error", message := "Failed to send notification", dispatches := 0 }
  | _ => { status := "error", message := "Unexpected error", dispatches := 0 }

/-- Response of the Notifier endpoint `/handle`
(`src/notification-service/src/api/reminders.py`): HTTP 200 carrying
the handler result when its `status` is `"success"`, HTTP 500 carrying
it otherwise. -/
structure NotifierResponse where
  httpStatus : Nat
  status : String
  message : String
  dispatches : Nat
deriving DecidableEq, Repr

/-- Embedding of the Notifier API endpoint `handle_reminder_event` in
`reminders.py`: parse the body, delegate to the handler, and map the
result status onto the HTTP status. -/
def notifier_handle (body : J) : NotifierResponse :=
  let r := handle_reminder_event body
  if r.status == "success" then
    { httpStatus := 200, status := r.status, message := r.message,
      dispatches := r.dispatches }
  else
    { httpStatus := 500, status := r.status, message := r.message,
      dispatches := r.dispatches }

/-! ## Event Publisher -/

/-- A task tag (`src/backend/src/models/tag.py`), as read by the publisher. -/
structure Tag where
  name : String

/-- The task entity fields the publisher reads
(`src/backend/src/models/task.py`); enum-valued fields are taken after
their `.value` projection. -/
structure Task where
  id : String
  title : String
  description : Option String
  is_completed : Bool
  priority : String
  due_date : Option DateTime
  remind_at : Option DateTime
  recurrence : String
  parent_task_id : Option String
  tags : List Tag
  created_at : Option DateTime
  updated_at : Option DateTime

/-- `TaskEventData` of `src/backend/src/services/events/schemas.py`:
the immutable task snapshot carried in the envelope. -/
structure TaskEventData where
  id : String
  title : String
  description : Option String
  is_completed : Bool
  priority : String
  due_date : Option DateTime
  remind_at : Option DateTime
  recurrence : String
  parent_task_id : Option String
  tags : List String
  created_at : Option DateTime
  updated_at : Option DateTime

/-- `TaskEvent` of `schemas.py`: the envelope published to the
task-events topic. -/
structure TaskEvent where
  event_type : String
  task_id : String
  task_data : TaskEventData
  user_id : String
  timestamp : DateTime

/-- The envelope `publish_task_event` builds from a task before posting
it (`publisher.py` lines 80–102). -/
def mkTaskEvent (event_type : String) (task : Task) (user_id : String)
    (now : DateTime) : TaskEvent :=
  { event_type := event_type
    task_id := task.id
    task_data :=
      { id := task.id
        title := task.title
        description := task.description
        is_completed := task.is_completed
        priority := task.priority
        due_date := task.due_date
        remind_at := task.remind_at
        recurrence := task.recurrence
        parent_task_id := task.parent_task_id
        tags := task.tags.map (fun t => t.name)
        created_at := task.created_at
        updated_at := task.updated_at }
    user_id := user_id
    timestamp := now }

/-- Embedding of `EventPublisher.publish_task_event` in
`src/backend/src/services/events/publisher.py`.  `post` is the
environment of the single `client.post` to the Dapr gateway combined
with `raise_for_status` (`error` = `httpx.HTTPError`, network failure
or non-2xx).  The returned pair is (returned boolean, number of
outbound requests made): when publishing is disabled the source logs
and returns `True` without contacting the bus; when enabled it posts
exactly once and maps any transport failure to `False` via the
`except` clauses, never letting the exception escape. -/
def publish_task_event (enabled : Bool) (post : TaskEvent → Except String Unit)
    (event_type : String) (task : Task) (user_id : String) (now : DateTime) :
    Bool × Nat :=
  if !enabled then (true, 0)
  else
    let event := mkTaskEvent event_type task user_id now
    match post event with
    | .ok _ => (true, 1)
    | .error _ => (false, 1)

/-! ## Calendar lemmas -/

theorem daysInMonth_pos (y m : Nat) : 1 ≤ daysInMonth y m := by
  unfold daysInMonth
  split_ifs <;> omega

theorem daysBeforeMonth_succ (y m : Nat) (h : 1 ≤ m) :
    daysBeforeMonth y (m + 1) = daysBeforeMonth y m + daysInMonth y m := by
  match m, h with
  | m + 1, _ => rfl

theorem valid_nextDay (d : DateTime) (hv : Valid d) : Valid (nextDay d) := by
  unfold Valid at hv ⊢
  obtain ⟨hm1, hm2, hd1, hd2, hmin⟩ := hv
  unfold nextDay
  split_ifs with h1 h2
  · dsimp only
    exact ⟨hm1, hm2, by omega, by omega, hmin⟩
  · have := daysInMonth_pos d.year (d.month + 1)
    dsimp only
    exact ⟨by omega, by omega, by omega, by omega, hmin⟩
  · have := daysInMonth_pos (d.year + 1) 1
    dsimp only
    exact ⟨by omega, by omega, by omega, by omega, hmin⟩

theorem toMinutes_nextDay (d : DateTime) (hv : Valid d) :
    toMinutes (nextDay d) = toMinutes d + 1440 := by
  unfold Valid at hv
  obtain ⟨hm1, hm2, hd1, hd2, hmin⟩ := hv
  unfold nextDay
  split_ifs with h1 h2
  · simp only [toMinutes, toDays]
    omega
  · have hbm := daysBeforeMonth_succ d.year d.month hm1
    simp only [toMinutes, toDays]
    omega
  · have hm12 : d.month = 12 := by omega
    have h31 : daysInMonth d.year 12 = 31 := rfl
    have hdy : daysInYear d.year = daysBeforeMonth d.year 12 + 31 := by
      have h13 := daysBeforeMonth_succ d.year 12 (by omega)
      rw [daysInYear, h13, h31]
    have hby : daysBeforeYear (d.year + 1)
        = daysBeforeYear d.year + daysInYear d.year := rfl
    have hdm1 : daysBeforeMonth (d.year + 1) 1 = 0 := rfl
    rw [hm12] at h1 hd2
    rw [h31] at h1 hd2
    simp only [toMinutes, toDays, hm12]
    omega

theorem addDays_spec (n : Nat) : ∀ d : DateTime, Valid d →
    Valid (addDays n d) ∧ toMinutes (addDays n d) = toMinutes d + 1440 * n := by
  induction n with
  | zero => intro d hv; exact ⟨hv, by simp [addDays]⟩
  | succ k ih =>
    intro d hv
    have h1 := valid_nextDay d hv
    have h2 := toMinutes_nextDay d hv
    have h3 := ih (nextDay d) h1
    have e : addDays (k + 1) d = addDays k (nextDay d) := rfl
    refine ⟨by rw [e]; exact h3.1, ?_⟩
    rw [e, h3.2, h2]
    ring

theorem addMonths1_spec (d : DateTime) (hv : Valid d) :
    Valid (addMonths1 d) ∧ toMinutes d + 1440 ≤ toMinutes (addMonths1 d) := by
  unfold Valid at hv
  obtain ⟨hm1, hm2, hd1, hd2, hmin⟩ := hv
  unfold addMonths1
  split_ifs with h12
  · have h31a : daysInMonth (d.year + 1) 1 = 31 := rfl
    have h31b : daysInMonth d.year 12 = 31 := rfl
    rw [h12] at hd2
    rw [h31b] at hd2
    constructor
    · unfold Valid
      dsimp only
      rw [h31a]
      refine ⟨by omega, by omega, by omega, by omega, hmin⟩
    · have hdy : daysInYear d.year = daysBeforeMonth d.year 12 + 31 := by
        have h13 := daysBeforeMonth_succ d.year 12 (by omega)
        rw [daysInYear, h13, h31b]
      have hby : daysBeforeYear (d.year + 1)
          = daysBeforeYear d.year + daysInYear d.year := rfl
      have hdm1 : daysBeforeMonth (d.year + 1) 1 = 0 := rfl
      simp only [toMinutes, toDays, h12, h31a]
      omega
  · have hbm := daysBeforeMonth_succ d.year d.month hm1
    have hpos := daysInMonth_pos d.year (d.month + 1)
    constructor
    · unfold Valid
      dsimp only
      refine ⟨by omega, by omega, by omega, by omega, hmin⟩
    · simp only [toMinutes, toDays]
      omega

theorem stepInterval_spec (r : String)
    (hr : r = "daily" ∨ r = "weekly" ∨ r = "monthly") (d : DateTime)
    (hv : Valid d) :
    Valid (stepInterval r d) ∧ toMinutes d + 1440 ≤ toMinutes (stepInterval r d) := by
  rcases hr with h | h | h <;> subst h
  · have e : stepInterval "daily" d = addDays 1 d := by
      unfold stepInterval
      rw [if_pos rfl]
    have := addDays_spec 1 d hv
    rw [e]
    exact ⟨this.1, by omega⟩
  · have e : stepInterval "weekly" d = addDays 7 d := by
      unfold stepInterval
      rw [if_neg (by decide), if_pos rfl]
    have := addDays_spec 7 d hv
    rw [e]
    exact ⟨this.1, by omega⟩
  · have e : stepInterval "monthly" d = addMonths1 d := by
      unfold stepInterval
      rw [if_neg (by decide), if_neg (by decide), if_pos rfl]
    rw [e]
    exact addMonths1_spec d hv

theorem ensureFutureAux_advance (step : DateTime → DateTime) (now c : DateTime)
    (h1 : toMinutes c ≤ toMinutes now) (h2 : toMinutes c < toMinutes (step c)) :
    ensureFutureAux step now c = ensureFutureAux step now (step c) := by
  rw [ensureFutureAux]
  rw [dif_pos h1, dif_pos h2]

theorem ensureFutureAux_exit (step : DateTime → DateTime) (now c : DateTime)
    (h : toMinutes now < toMinutes c) :
    ensureFutureAux step now c = c := by
  rw [ensureFutureAux]
  rw [dif_neg (by omega)]

/-- The future-correction loop lands strictly after `now` and preserves
validity, whenever each step strictly advances the timeline on valid
datetimes. -/
theorem ensureFutureAux_spec (step : DateTime → DateTime) (now : DateTime)
    (hstep : ∀ d, Valid d → Valid (step d) ∧ toMinutes d < toMinutes (step d)) :
    ∀ c, Valid c →
      Valid (ensureFutureAux step now c) ∧
        toMinutes now < toMinutes (ensureFutureAux step now c) := by
  have H : ∀ μ c, Valid c → toMinutes now + 1 - toMinutes c ≤ μ →
      Valid (ensureFutureAux step now c) ∧
        toMinutes now < toMinutes (ensureFutureAux step now c) := by
    intro μ
    induction μ with
    | zero =>
      intro c hv hμ
      have hgt : toMinutes now < toMinutes c := by omega
      rw [ensureFutureAux_exit step now c hgt]
      exact ⟨hv, hgt⟩
    | succ k ih =>
      intro c hv hμ
      by_cases hle : toMinutes c ≤ toMinutes now
      · obtain ⟨hv2, hlt⟩ := hstep c hv
        rw [ensureFutureAux_advance step now c hle hlt]
        exact ih (step c) hv2 (by omega)
      · have hgt : toMinutes now < toMinutes c := by omega
        rw [ensureFutureAux_exit step now c hgt]
        exact ⟨hv, hgt⟩
  exact fun c hv => H (toMinutes now + 1 - toMinutes c) c hv le_rfl

/-- Iterating a step that advances by at least a day advances by at
least a day per iteration. -/
theorem iterate_step_spec (step : DateTime → DateTime)
    (hstep : ∀ d, Valid d → Valid (step d) ∧ toMinutes d + 1440 ≤ toMinutes (step d)) :
    ∀ (n : Nat) (d : DateTime), Valid d →
      Valid (step^[n] d) ∧ toMinutes d + 1440 * n ≤ toMinutes (step^[n] d) := by
  intro n
  induction n with
  | zero => intro d hv; simp [hv]
  | succ k ih =>
    intro d hv
    obtain ⟨hv1, hb1⟩ := ih d hv
    obtain ⟨hv2, hb2⟩ := hstep (step^[k] d) hv1
    rw [Function.iterate_succ_apply']
    exact ⟨hv2, by omega⟩

/-! ## Claims -/

/-- C1: for every pattern in {daily, weekly, monthly} and every
previous-due timestamp strictly in the past, `calculate_next_due`
returns a timestamp strictly greater than the current time; in
particular weekly from 2025-01-01T00:00Z evaluated at
now = 2025-01-08T00:00Z yields 2025-01-15T00:00Z. -/
theorem claim_C1 :
    (∀ (prev now : DateTime) (ca : Option DateTime) (r : String),
        Valid prev → Valid now → toMinutes prev < toMinutes now →
        r = "daily" ∨ r = "weekly" ∨ r = "monthly" →
        ∃ res, calculate_next_due (some prev) r ca now = some res ∧
          toMinutes now < toMinutes res)
    ∧ calculate_next_due (some ⟨2025, 1, 1, 0⟩) "weekly" (some ⟨2025, 1, 8, 0⟩)
        ⟨2025, 1, 8, 0⟩ = some ⟨2025, 1, 15, 0⟩ := by
  constructor
  · intro prev now ca r hvp hvn hpast hr
    have hcalc : calculate_next_due (some prev) r ca now =
        some (ensureFutureAux (stepInterval r) now (stepInterval r prev)) := by
      rcases hr with h | h | h <;> subst h <;> rfl
    have hstep : ∀ d, Valid d →
        Valid (stepInterval r d) ∧ toMinutes d < toMinutes (stepInterval r d) := by
      intro d hd
      obtain ⟨h1, h2⟩ := stepInterval_spec r hr d hd
      exact ⟨h1, by omega⟩
    obtain ⟨hv1, _⟩ := hstep prev hvp
    obtain ⟨_, hfut⟩ :=
      ensureFutureAux_spec (stepInterval r) now hstep (stepInterval r prev) hv1
    exact ⟨_, hcalc, hfut⟩
  · have hw : ("weekly" : String) = "daily" ∨ ("weekly" : String) = "weekly" ∨
        ("weekly" : String) = "monthly" := Or.inr (Or.inl rfl)
    have hv8 : Valid (⟨2025, 1, 8, 0⟩ : DateTime) := by decide
    have e1 : stepInterval "weekly" ⟨2025, 1, 1, 0⟩ = ⟨2025, 1, 8, 0⟩ := by decide
    have e2 : stepInterval "weekly" ⟨2025, 1, 8, 0⟩ = ⟨2025, 1, 15, 0⟩ := by decide
    have hadv : toMinutes (⟨2025, 1, 8, 0⟩ : DateTime) + 1440 ≤
        toMinutes (stepInterval "weekly" ⟨2025, 1, 8, 0⟩) :=
      (stepInterval_spec "weekly" hw ⟨2025, 1, 8, 0⟩ hv8).2
    have hcalc : calculate_next_due (some ⟨2025, 1, 1, 0⟩) "weekly"
        (some ⟨2025, 1, 8, 0⟩) ⟨2025, 1, 8, 0⟩ =
        some (ensureFutureAux (stepInterval "weekly") ⟨2025, 1, 8, 0⟩
          (stepInterval "weekly" ⟨2025, 1, 1, 0⟩)) := rfl
    rw [hcalc, e1,
      ensureFutureAux_advance (stepInterval "weekly") ⟨2025, 1, 8, 0⟩ ⟨2025, 1, 8, 0⟩
        le_rfl (by omega),
      e2,
      ensureFutureAux_exit (stepInterval "weekly") ⟨2025, 1, 8, 0⟩ ⟨2025, 1, 15, 0⟩
        (by rw [← e2]; omega)]

/-- Witness for C1: the universal part applied at a concrete
previous-due one day before a concrete now, pattern daily. -/
theorem claim_C1_witness :
    (Valid (⟨2, 1, 1, 0⟩ : DateTime) ∧ Valid (⟨2, 1, 2, 0⟩ : DateTime) ∧
      toMinutes ⟨2, 1, 1, 0⟩ < toMinutes ⟨2, 1, 2, 0⟩) ∧
    ∃ res, calculate_next_due (some ⟨2, 1, 1, 0⟩) "daily" none ⟨2, 1, 2, 0⟩ =
        some res ∧ toMinutes ⟨2, 1, 2, 0⟩ < toMinutes res :=
  ⟨⟨by decide, by decide, by decide⟩,
    claim_C1.1 ⟨2, 1, 1, 0⟩ ⟨2, 1, 2, 0⟩ none "daily" (by decide) (by decide)
      (by decide) (Or.inl rfl)⟩

/-- C2: for the three real patterns the computation anchors on
`current_due` if present, else `completed_at`, else now (in that
order), and the first candidate is the anchor advanced by one
pattern interval; in particular with `previousDue = None` and
`completedAt = T` supplied, pattern daily anchors on `T`. -/
theorem claim_C2 :
    (∀ (pd ca : Option DateTime) (now : DateTime) (r : String),
        r = "daily" ∨ r = "weekly" ∨ r = "monthly" →
        calculate_next_due pd r ca now =
          some (ensureFutureAux (stepInterval r) now
            (specFirstCandidate r (specAnchor pd ca now))))
    ∧ ∀ (T now : DateTime),
        calculate_next_due none "daily" (some T) now =
          some (ensureFutureAux (stepInterval "daily") now (addDays 1 T)) := by
  constructor
  · intro pd ca now r hr
    rcases hr with h | h | h <;> subst h <;>
      rcases pd with _ | p <;> rcases ca with _ | c <;> rfl
  · intro T now
    rfl

/-- Witness for C2: the anchor/first-candidate law at concrete inputs. -/
theorem claim_C2_witness :
    (("weekly" : String) = "daily" ∨ ("weekly" : String) = "weekly" ∨
      ("weekly" : String) = "monthly") ∧
    calculate_next_due (some ⟨2, 3, 4, 5⟩) "weekly" none ⟨2, 3, 5, 0⟩ =
      some (ensureFutureAux (stepInterval "weekly") ⟨2, 3, 5, 0⟩
        (specFirstCandidate "weekly" (specAnchor (some ⟨2, 3, 4, 5⟩) none ⟨2, 3, 5, 0⟩))) :=
  ⟨Or.inr (Or.inl rfl),
    claim_C2.1 (some ⟨2, 3, 4, 5⟩) none ⟨2, 3, 5, 0⟩ "weekly" (Or.inr (Or.inl rfl))⟩

/-- C3: pattern `"none"` returns nothing for any inputs, and any
pattern outside {none, daily, weekly, monthly} returns nothing while
taking the warning branch. -/
theorem claim_C3 :
    (∀ (cd ca : Option DateTime) (now : DateTime),
        calculate_next_due_full cd "none" ca now =
          { next := none, warnedUnknown := false })
    ∧ ∀ (r : String) (cd ca : Option DateTime) (now : DateTime),
        r ≠ "none" → r ≠ "daily" → r ≠ "weekly" → r ≠ "monthly" →
        calculate_next_due_full cd r ca now =
          { next := none, warnedUnknown := true } := by
  constructor
  · intro cd ca now
    rfl
  · intro r cd ca now h0 h1 h2 h3
    unfold calculate_next_due_full
    rw [if_neg h0, if_neg (by simp [h1, h2, h3])]

/-- Witness for C3: an unknown pattern string. -/
theorem claim_C3_witness :
    (("yearly" : String) ≠ "none" ∧ ("yearly" : String) ≠ "daily" ∧
      ("yearly" : String) ≠ "weekly" ∧ ("yearly" : String) ≠ "monthly") ∧
    calculate_next_due_full (some ⟨2, 1, 1, 0⟩) "yearly" none ⟨2, 1, 2, 0⟩ =
      { next := none, warnedUnknown := true } :=
  ⟨⟨by decide, by decide, by decide, by decide⟩,
    claim_C3.2 "yearly" (some ⟨2, 1, 1, 0⟩) none ⟨2, 1, 2, 0⟩ (by decide)
      (by decide) (by decide) (by decide)⟩

/-- C10: for each of the three patterns, every step of the
future-correction loop advances the candidate by at least one day on
valid datetimes, and from any valid base anchor finitely many
iterations exceed any fixed now — the loop terminates. -/
theorem claim_C10 :
    ∀ (r : String), r = "daily" ∨ r = "weekly" ∨ r = "monthly" →
      (∀ d, Valid d → Valid (stepInterval r d) ∧
        toMinutes d + 1440 ≤ toMinutes (stepInterval r d))
      ∧ ∀ (base now : DateTime), Valid base →
          ∃ n, toMinutes now < toMinutes ((stepInterval r)^[n] base) := by
  intro r hr
  refine ⟨fun d hd => stepInterval_spec r hr d hd, ?_⟩
  intro base now hb
  refine ⟨toMinutes now + 1, ?_⟩
  have hit := iterate_step_spec (stepInterval r)
    (fun d hd => stepInterval_spec r hr d hd) (toMinutes now + 1) base hb
  have := hit.2
  have h1440 : toMinutes now + 1 ≤ 1440 * (toMinutes now + 1) := by omega
  omega

/-- Witness for C10: termination data at concrete inputs, pattern daily. -/
theorem claim_C10_witness :
    (("daily" : String) = "daily" ∨ ("daily" : String) = "weekly" ∨
      ("daily" : String) = "monthly") ∧
    Valid (⟨2, 1, 1, 0⟩ : DateTime) ∧
    ∃ n, toMinutes ⟨2, 1, 2, 0⟩ <
      toMinutes ((stepInterval "daily")^[n] ⟨2, 1, 1, 0⟩) :=
  ⟨Or.inl rfl, by decide,
    (claim_C10 "daily" (Or.inl rfl)).2 ⟨2, 1, 1, 0⟩ ⟨2, 1, 2, 0⟩ (by decide)⟩

/-- C4: the claim says a failed creation call makes the Reactivator
respond with a non-2xx status so the bus redelivers.  The code is the
bug: every branch of `handle_task_event` — including the one whose
comment announces a 503 — returns a plain dict, which FastAPI sends
with HTTP 200; at the failing input (a completion event of a recurring
task, a bearer credential present, and the creation call raising) the
response is HTTP 200 with body status `"RETRY"`. -/
theorem claim_C4 :
    (∀ (parseIso : String → Option PyDateTime) (body : J) (auth : String)
        (backend : BackendCall) (now : DateTime),
        (handle_task_event parseIso body auth backend now).httpStatus = 200)
    ∧ handle_task_event (fun _ => none)
        (J.jobj [("event_type", J.jstr "task.completed"),
                 ("task_id", J.jstr "t1"),
                 ("task_data", J.jobj [("title", J.jstr "Water plants"),
                                       ("recurrence", J.jstr "weekly")]),
                 ("user_id", J.jstr "u1")])
        "Bearer tok0" ⟨Except.error "connection refused", 0⟩ ⟨2025, 1, 8, 0⟩
      = { httpStatus := 200, status := "RETRY", reason := none,
          createCalls := 1, tagCalls := 0 } := by
  constructor
  · intro parseIso body auth backend now
    cases body <;> try rfl
    case jobj fs =>
      simp only [handle_task_event]
      repeat first
        | rfl
        | (split <;> try rfl)
  · decide

/-- C5 counterexample: a reminder payload missing `user_id` makes the
Notifier respond HTTP 500 (not the 2xx acknowledgement the claim
states), with the validation-error outcome and zero dispatches. -/
theorem claim_C5_counterexample :
    notifier_handle (J.jobj [("task_id", J.jstr "t1"),
        ("title", J.jstr "Water plants"),
        ("remind_at", J.jstr "2025-01-08T09:00:00Z")]) =
      { httpStatus := 500, status := "error",
        message := "Invalid reminder event data", dispatches := 0 } := by
  decide

/-- C5 (amended): a reminder payload with a required field missing or
falsy yields the invalid-data error outcome with zero dispatch
attempts, and the Notifier API maps it to HTTP 500 — a retryable
failure to the bus, not an acknowledgement. -/
theorem claim_C5 :
    ∀ fs : List (String × J),
      (∃ f ∈ (["task_id", "title", "user_id"] : List String),
        (match List.lookup f fs with
         | some v => truthyJ v
         | none => false) = false) →
      notifier_handle (J.jobj fs) =
        { httpStatus := 500, status := "error",
          message := "Invalid reminder event data", dispatches := 0 } := by
  intro fs h
  obtain ⟨f, hf, hv⟩ := h
  have hval : validate_event_data fs = false := by
    unfold validate_event_data
    rw [List.all_eq_false]
    exact ⟨f, hf, by simp [hv]⟩
  simp [notifier_handle, handle_reminder_event, hval]

/-- Witness for C5: a payload with no `task_id`. -/
theorem claim_C5_witness :
    (∃ f ∈ (["task_id", "title", "user_id"] : List String),
      (match List.lookup f [("title", J.jstr "Standup")] with
       | some v => truthyJ v
       | none => false) = false) ∧
    notifier_handle (J.jobj [("title", J.jstr "Standup")]) =
      { httpStatus := 500, status := "error",
        message := "Invalid reminder event data", dispatches := 0 } :=
  ⟨⟨"task_id", by decide, rfl⟩,
    claim_C5 [("title", J.jstr "Standup")] ⟨"task_id", by decide, rfl⟩⟩

/-- C6: an inbound lifecycle event whose kind is not `task.completed`,
or whose snapshot has recurrence `none` (explicitly or by default),
makes the Reactivator answer `IGNORED` with zero creation calls and
zero tag-attachment calls, acknowledged with HTTP 200. -/
theorem claim_C6 :
    ∀ (parseIso : String → Option PyDateTime) (fs ds td : List (String × J))
      (auth : String) (backend : BackendCall) (now : DateTime),
      extract_payload (J.jobj fs) = J.jobj ds →
      (List.lookup "task_data" ds).getD (J.jobj []) = J.jobj td →
      (isCompletedEvent (List.lookup "event_type" ds) = false ∨
        (List.lookup "recurrence" td).getD (J.jstr "none") = J.jstr "none") →
      (handle_task_event parseIso (J.jobj fs) auth backend now).status = "IGNORED" ∧
      (handle_task_event parseIso (J.jobj fs) auth backend now).createCalls = 0 ∧
      (handle_task_event parseIso (J.jobj fs) auth backend now).tagCalls = 0 ∧
      (handle_task_event parseIso (J.jobj fs) auth backend now).httpStatus = 200 := by
  intro parseIso fs ds td auth backend now hb htd hcase
  simp only [handle_task_event, hb, htd]
  rcases hcase with h | h
  · rw [h]
    exact ⟨rfl, rfl, rfl, rfl⟩
  · by_cases hev : isCompletedEvent (List.lookup "event_type" ds)
    · rw [hev, h]
      exact ⟨rfl, rfl, rfl, rfl⟩
    · rw [Bool.of_not_eq_true hev]
      exact ⟨rfl, rfl, rfl, rfl⟩

/-- Witness for C6: a `task.updated` event is ignored with no outbound calls. -/
theorem claim_C6_witness :
    (extract_payload (J.jobj [("event_type", J.jstr "task.updated"),
        ("task_data", J.jobj [])]) =
      J.jobj [("event_type", J.jstr "task.updated"), ("task_data", J.jobj [])] ∧
     (List.lookup "task_data" [("event_type", J.jstr "task.updated"),
        ("task_data", J.jobj [])]).getD (J.jobj []) = J.jobj [] ∧
     isCompletedEvent (List.lookup "event_type"
        [("event_type", J.jstr "task.updated"), ("task_data", J.jobj [])]) = false) ∧
    (handle_task_event (fun _ => none)
        (J.jobj [("event_type", J.jstr "task.updated"), ("task_data", J.jobj [])])
        "" ⟨Except.error "down", 0⟩ ⟨2, 1, 2, 0⟩).status = "IGNORED" ∧
    (handle_task_event (fun _ => none)
        (J.jobj [("event_type", J.jstr "task.updated"), ("task_data", J.jobj [])])
        "" ⟨Except.error "down", 0⟩ ⟨2, 1, 2, 0⟩).createCalls = 0 ∧
    (handle_task_event (fun _ => none)
        (J.jobj [("event_type", J.jstr "task.updated"), ("task_data", J.jobj [])])
        "" ⟨Except.error "down", 0⟩ ⟨2, 1, 2, 0⟩).tagCalls = 0 ∧
    (handle_task_event (fun _ => none)
        (J.jobj [("event_type", J.jstr "task.updated"), ("task_data", J.jobj [])])
        "" ⟨Except.error "down", 0⟩ ⟨2, 1, 2, 0⟩).httpStatus = 200 :=
  ⟨⟨rfl, rfl, rfl⟩,
    claim_C6 (fun _ => none)
      [("event_type", J.jstr "task.updated"), ("task_data", J.jobj [])]
      [("event_type", J.jstr "task.updated"), ("task_data", J.jobj [])]
      [] "" ⟨Except.error "down", 0⟩ ⟨2, 1, 2, 0⟩ rfl rfl (Or.inl rfl)⟩

/-- C7: the claim says every recurring completion event arriving
without a bearer credential is explicitly skipped, logged, and
acknowledged.  The code is the bug on the pipeline's canonical event
shape: a Z/offset-suffixed `due_date` (the format the spec's examples
use and the publisher emits) parses to an offset-aware datetime, the
loop guard `next_due <= datetime.utcnow()` in `calculate_next_due`
then raises `TypeError`, and the outer `except` returns status
`"FAILED"` — the skip branch and its `no_auth_token_available` log are
never reached (first conjunct; the event is still acknowledged with
HTTP 200 and no outbound call is made).  The explicit `SKIPPED` of the
claim is reached exactly when the due date is absent, falsy, or parses
to a naive datetime (second conjunct). -/
theorem claim_C7 :
    handle_task_event
        (fun s => if s = "2025-01-01T00:00:00Z"
                  then some ⟨true, ⟨2025, 1, 1, 0⟩⟩ else none)
        (J.jobj [("event_type", J.jstr "task.completed"),
                 ("task_id", J.jstr "t9"),
                 ("task_data", J.jobj [("title", J.jstr "Weekly report"),
                                       ("recurrence", J.jstr "weekly"),
                                       ("due_date", J.jstr "2025-01-01T00:00:00Z")]),
                 ("user_id", J.jstr "u9")])
        "" ⟨Except.error "unused", 0⟩ ⟨2025, 1, 8, 0⟩
      = { httpStatus := 200, status := "FAILED", reason := none,
          createCalls := 0, tagCalls := 0 }
    ∧ ∀ (parseIso : String → Option PyDateTime) (fs ds td : List (String × J))
        (backend : BackendCall) (now : DateTime) (r : String),
        extract_payload (J.jobj fs) = J.jobj ds →
        (List.lookup "task_data" ds).getD (J.jobj []) = J.jobj td →
        isCompletedEvent (List.lookup "event_type" ds) = true →
        (List.lookup "recurrence" td).getD (J.jstr "none") = J.jstr r →
        (r = "daily" ∨ r = "weekly" ∨ r = "monthly") →
        (truthyJ ((List.lookup "due_date" td).getD J.jnull) = false ∨
          ∃ s dt, (List.lookup "due_date" td).getD J.jnull = J.jstr s ∧
            parseIso s = some ⟨false, dt⟩) →
        handle_task_event parseIso (J.jobj fs) "" backend now =
          { httpStatus := 200, status := "SKIPPED",
            reason := some "no authentication token available",
            createCalls := 0, tagCalls := 0 } := by
  constructor
  · decide
  · intro parseIso fs ds td backend now r hb htd hev hrec hr hdue
    have hnone : (r == "none") = false := by
      rcases hr with h | h | h <;> subst h <;> rfl
    have hsome : ∀ cd, ∃ v, calculate_next_due cd r (some now) now = some v := by
      intro cd
      rcases hr with h | h | h <;> subst h <;> exact ⟨_, rfl⟩
    simp only [handle_task_event, hb, htd, hev, hrec, hnone]
    rcases hdue with h | ⟨s, dt, hdd, hp⟩
    · rw [h]
      obtain ⟨v, hv⟩ := hsome none
      simp [calculate_next_due_from_handler, hv]
    · rw [hdd]
      by_cases ht : truthyJ (J.jstr s)
      · rw [ht]
        obtain ⟨v, hv⟩ := hsome (some dt)
        simp [hp, calculate_next_due_from_handler, hv]
      · rw [Bool.of_not_eq_true ht]
        obtain ⟨v, hv⟩ := hsome none
        simp [calculate_next_due_from_handler, hv]

/-- Witness for C7: a completed daily-recurring event with no due date
and no credential is skipped without contacting the owning service. -/
theorem claim_C7_witness :
    (extract_payload (J.jobj [("event_type", J.jstr "task.completed"),
        ("task_id", J.jstr "t9"),
        ("task_data", J.jobj [("title", J.jstr "Weekly report"),
                              ("recurrence", J.jstr "daily")]),
        ("user_id", J.jstr "u9")]) =
      J.jobj [("event_type", J.jstr "task.completed"), ("task_id", J.jstr "t9"),
        ("task_data", J.jobj [("title", J.jstr "Weekly report"),
                              ("recurrence", J.jstr "daily")]),
        ("user_id", J.jstr "u9")] ∧
     isCompletedEvent (some (J.jstr "task.completed")) = true ∧
     (("daily" : String) = "daily" ∨ ("daily" : String) = "weekly" ∨
       ("daily" : String) = "monthly")) ∧
    handle_task_event (fun _ => none)
        (J.jobj [("event_type", J.jstr "task.completed"), ("task_id", J.jstr "t9"),
          ("task_data", J.jobj [("title", J.jstr "Weekly report"),
                                ("recurrence", J.jstr "daily")]),
          ("user_id", J.jstr "u9")])
        "" ⟨Except.error "down", 0⟩ ⟨2, 1, 2, 0⟩ =
      { httpStatus := 200, status := "SKIPPED",
        reason := some "no authentication token available",
        createCalls := 0, tagCalls := 0 } :=
  ⟨⟨rfl, rfl, Or.inl rfl⟩,
    claim_C7.2 (fun _ => none)
      [("event_type", J.jstr "task.completed"), ("task_id", J.jstr "t9"),
        ("task_data", J.jobj [("title", J.jstr "Weekly report"),
                              ("recurrence", J.jstr "daily")]),
        ("user_id", J.jstr "u9")]
      [("event_type", J.jstr "task.completed"), ("task_id", J.jstr "t9"),
        ("task_data", J.jobj [("title", J.jstr "Weekly report"),
                              ("recurrence", J.jstr "daily")]),
        ("user_id", J.jstr "u9")]
      [("title", J.jstr "Weekly report"), ("recurrence", J.jstr "daily")]
      ⟨Except.error "down", 0⟩ ⟨2, 1, 2, 0⟩ "daily"
      rfl rfl rfl rfl (Or.inl rfl) (Or.inl rfl)⟩

/-- C8: the publisher returns a boolean and never lets the transport
exception escape; disabled publishing returns success with zero
outbound requests; enabled publishing makes exactly one request per
call, returning failure on a transport error and success otherwise. -/
theorem claim_C8 :
    ∀ (post : TaskEvent → Except String Unit) (event_type : String)
      (task : Task) (user_id : String) (now : DateTime),
      publish_task_event false post event_type task user_id now = (true, 0)
      ∧ (publish_task_event true post event_type task user_id now).2 = 1
      ∧ (∀ e, post (mkTaskEvent event_type task user_id now) = .error e →
          publish_task_event true post event_type task user_id now = (false, 1))
      ∧ (post (mkTaskEvent event_type task user_id now) = .ok () →
          publish_task_event true post event_type task user_id now = (true, 1)) := by
  intro post event_type task user_id now
  refine ⟨rfl, ?_, ?_, ?_⟩
  · rcases hp : post (mkTaskEvent event_type task user_id now) with e | u <;>
      simp [publish_task_event, hp]
  · intro e he
    simp [publish_task_event, he]
  · intro he
    simp [publish_task_event, he]

/-- Witness for C8: a concrete task published against a failing bus. -/
theorem claim_C8_witness :
    publish_task_event false (fun _ => Except.error "bus down") "task.completed"
      ⟨"t1", "Weekly sync", none, true, "medium", none, none, "weekly", none,
        [], none, none⟩ "u1" ⟨2, 1, 2, 0⟩ = (true, 0) ∧
    (fun _ => (Except.error "bus down" : Except String Unit))
        (mkTaskEvent "task.completed"
          ⟨"t1", "Weekly sync", none, true, "medium", none, none, "weekly", none,
            [], none, none⟩ "u1" ⟨2, 1, 2, 0⟩) = Except.error "bus down" ∧
    publish_task_event true (fun _ => Except.error "bus down") "task.completed"
      ⟨"t1", "Weekly sync", none, true, "medium", none, none, "weekly", none,
        [], none, none⟩ "u1" ⟨2, 1, 2, 0⟩ = (false, 1) :=
  ⟨(claim_C8 (fun _ => Except.error "bus down") "task.completed"
      ⟨"t1", "Weekly sync", none, true, "medium", none, none, "weekly", none,
        [], none, none⟩ "u1" ⟨2, 1, 2, 0⟩).1,
   rfl,
   (claim_C8 (fun _ => Except.error "bus down") "task.completed"
      ⟨"t1", "Weekly sync", none, true, "medium", none, none, "weekly", none,
        [], none, none⟩ "u1" ⟨2, 1, 2, 0⟩).2.2.1 "bus down" rfl⟩

/-- C9 counterexample: the claim says both services unwrap a
cloud-event `data` envelope.  The Notifier does not: a wrapped body
containing a fully valid reminder under `data` is rejected with HTTP
500, while the same payload sent unwrapped succeeds — so the payload
the Notifier processes is not the value of the `data` field. -/
theorem claim_C9_counterexample :
    (notifier_handle (J.jobj [("data", J.jobj [("task_id", J.jstr "t1"),
        ("title", J.jstr "Call home"), ("user_id", J.jstr "u1")])])).status
      = "error" ∧
    (notifier_handle (J.jobj [("data", J.jobj [("task_id", J.jstr "t1"),
        ("title", J.jstr "Call home"), ("user_id", J.jstr "u1")])])).httpStatus
      = 500 ∧
    (notifier_handle (J.jobj [("task_id", J.jstr "t1"),
        ("title", J.jstr "Call home"), ("user_id", J.jstr "u1")])).status
      = "success" := by
  decide

/-- C9 (amended): the Reactivator unwraps transparently — a body whose
`data` field holds the payload is handled exactly like that payload
sent as the top-level body — while the Notifier always processes the
top-level body: with the required fields only inside a `data` wrapper
it reports invalid data with HTTP 500 and dispatches nothing. -/
theorem claim_C9 :
    (∀ (parseIso : String → Option PyDateTime) (fs ds : List (String × J))
        (auth : String) (backend : BackendCall) (now : DateTime),
        List.lookup "data" fs = some (J.jobj ds) →
        List.lookup "data" ds = none →
        handle_task_event parseIso (J.jobj fs) auth backend now =
          handle_task_event parseIso (J.jobj ds) auth backend now)
    ∧ ∀ (fs : List (String × J)) (inner : J),
        List.lookup "data" fs = some inner →
        List.lookup "task_id" fs = none →
        notifier_handle (J.jobj fs) =
          { httpStatus := 500, status := "error",
            message := "Invalid reminder event data", dispatches := 0 } := by
  constructor
  · intro parseIso fs ds auth backend now h1 h2
    have e1 : extract_payload (J.jobj fs) = J.jobj ds := by
      simp [extract_payload, h1]
    have e2 : extract_payload (J.jobj ds) = J.jobj ds := by
      simp [extract_payload, h2]
    simp only [handle_task_event, e1, e2]
  · intro fs inner _hdata hmiss
    have hval : validate_event_data fs = false := by
      simp [validate_event_data, hmiss]
    simp [notifier_handle, handle_reminder_event, hval]

/-- Witness for C9: unwrap-equivalence of the Reactivator at a
concrete wrapped body. -/
theorem claim_C9_witness :
    (List.lookup "data" [("data", J.jobj [("event_type", J.jstr "task.updated")])] =
        some (J.jobj [("event_type", J.jstr "task.updated")]) ∧
      List.lookup "data" [("event_type", J.jstr "task.updated")] =
        (none : Option J)) ∧
    handle_task_event (fun _ => none)
        (J.jobj [("data", J.jobj [("event_type", J.jstr "task.updated")])])
        "" ⟨Except.error "down", 0⟩ ⟨2, 1, 2, 0⟩ =
      handle_task_event (fun _ => none)
        (J.jobj [("event_type", J.jstr "task.updated")])
        "" ⟨Except.error "down", 0⟩ ⟨2, 1, 2, 0⟩ :=
  ⟨⟨rfl, rfl⟩,
    claim_C9.1 (fun _ => none)
      [("data", J.jobj [("event_type", J.jstr "task.updated")])]
      [("event_type", J.jstr "task.updated")]
      "" ⟨Except.error "down", 0⟩ ⟨2, 1, 2, 0⟩ rfl rfl⟩

end TaskPipeline
